import Mathlib

/-!
Shallow embedding of `src/programs/noice-solana/src/lib.rs` (Anchor program
`noice_solana`): user profiles, SPL-token tips, paywalls and paywall unlocks.

Pubkeys are modelled as `Nat`; `u64` counters are `Nat` with explicit `% 2^64`
where the Rust `+=` can overflow (release-mode wrapping semantics); the SPL
token-transfer CPI and the Anchor/host rollback-on-error and
account-initialization behaviours are external to `lib.rs` and are modelled
from the spec where noted.
-/

namespace NoiceSolana

/-- Solana public key, modelled as a natural number. -/
abbrev Pubkey := Nat

/-- The modulus of `u64` arithmetic, `2^64`. -/
def U64MOD : Nat := 18446744073709551616

/-- The `UserProfile` account (`lib.rs` lines 204-208). -/
structure UserProfile where
  owner : Pubkey
  interaction_count : Nat
  deriving DecidableEq, Repr

/-- The `Paywall` account (`lib.rs` lines 210-217). -/
structure Paywall where
  creator : Pubkey
  content_id : String
  price : Nat
  token_mint : Pubkey
  access_count : Nat
  deriving DecidableEq, Repr

/-- SPL `TokenAccount`: the fields `lib.rs` reads (mint) plus the balance
the transfer primitive moves. -/
structure TokenAccount where
  mint : Pubkey
  amount : Nat
  deriving DecidableEq, Repr

/-- The `TipEvent` shape (`lib.rs` lines 220-228). -/
structure TipEvent where
  sender : Pubkey
  recipient : Pubkey
  token_mint : Pubkey
  amount : Nat
  action : String
  timestamp : Int
  deriving DecidableEq, Repr

/-- The `PaywallUnlockEvent` shape (`lib.rs` lines 230-238). -/
structure PaywallUnlockEvent where
  user : Pubkey
  creator : Pubkey
  content_id : String
  token_mint : Pubkey
  amount : Nat
  timestamp : Int
  deriving DecidableEq, Repr

/-- Modelled from the spec: the native errors of the external token-transfer
primitive ("insufficient token balance"); the primitive itself is
`anchor_spl::token::transfer`, outside `src/`. -/
inductive TransferError where
  | insufficientFunds
  deriving DecidableEq, Repr

/-- Errors an instruction of this program can return: its own
`ErrorCode::InvalidTokenMint` (`lib.rs` lines 241-245) or a propagated
native transfer error. -/
inductive ProgramError where
  | invalidTokenMint
  | transferError (e : TransferError)
  deriving DecidableEq, Repr

/-- Modelled from the spec: the external atomic token-transfer primitive
`transfer(from, to, authority, amount)` consumed via
`anchor_spl::token::transfer` (not in `src/`): it fails when the source
balance is below `amount`, otherwise debits the source and credits the
destination. -/
def transfer (source dest : TokenAccount) (amount : Nat) :
    Except TransferError (TokenAccount × TokenAccount) :=
  if source.amount < amount then
    .error .insufficientFunds
  else
    .ok ({ source with amount := source.amount - amount },
         { dest with amount := dest.amount + amount })

/-- The `initialize_user` instruction (`lib.rs` lines 13-19): the `UserProfile` record it
writes for signer `user`. -/
def initialize_user (user : Pubkey) : UserProfile :=
  { owner := user, interaction_count := 0 }

/-- The accounts of the `Tip` context (`lib.rs` lines 149-166) that the
`tip` instruction reads or writes. -/
structure TipAccounts where
  recipient_profile : UserProfile
  sender_token_account : TokenAccount
  recipient_token_account : TokenAccount
  sender : Pubkey
  recipient : Pubkey
  token_mint : Pubkey
  deriving DecidableEq, Repr

/-- A successful `tip`: the written accounts and the emitted event. -/
structure TipOk where
  recipient_profile : UserProfile
  sender_token_account : TokenAccount
  recipient_token_account : TokenAccount
  event : TipEvent
  deriving DecidableEq, Repr

/-- The `tip` instruction (`lib.rs` lines 22-65), with the host clock value `now` passed in.
The source increments `interaction_count` (wrapping `u64` `+=`) before the
mint check; on any error the instruction aborts, so the tentative writes
are never committed (the `Except` carries no state on `.error`). -/
def tip (accs : TipAccounts) (amount : Nat) (action : String) (now : Int) :
    Except ProgramError TipOk :=
  let profile :=
    { accs.recipient_profile with
        interaction_count := (accs.recipient_profile.interaction_count + 1) % U64MOD }
  if accs.sender_token_account.mint ≠ accs.token_mint
      ∨ accs.recipient_token_account.mint ≠ accs.token_mint then
    .error .invalidTokenMint
  else
    match transfer accs.sender_token_account accs.recipient_token_account amount with
    | .error e => .error (.transferError e)
    | .ok (src, dst) =>
      .ok { recipient_profile := profile
            sender_token_account := src
            recipient_token_account := dst
            event :=
              { sender := accs.sender
                recipient := accs.recipient
                token_mint := accs.token_mint
                amount := amount
                action := action
                timestamp := now } }

/-- The `create_paywall` instruction (`lib.rs` lines 68-87): the `Paywall` record it writes. -/
def create_paywall_record (creator : Pubkey) (content_id : String)
    (price : Nat) (token_mint : Pubkey) : Paywall :=
  { creator := creator, content_id := content_id, price := price,
    token_mint := token_mint, access_count := 0 }

/-- The accounts of the `UnlockPaywall` context (`lib.rs` lines 184-201)
that the `unlock_paywall` instruction reads or writes. -/
structure UnlockAccounts where
  paywall : Paywall
  user_token_account : TokenAccount
  creator_token_account : TokenAccount
  user : Pubkey
  token_mint : Pubkey
  deriving DecidableEq, Repr

/-- A successful `unlock_paywall`: the written accounts and the emitted event. -/
structure UnlockOk where
  paywall : Paywall
  user_token_account : TokenAccount
  creator_token_account : TokenAccount
  event : PaywallUnlockEvent
  deriving DecidableEq, Repr

/-- The `unlock_paywall` instruction (`lib.rs` lines 90-130), host clock value `now` passed
in. The amount is `paywall.price`; after the mint checks and the transfer,
`access_count` is incremented (wrapping `u64` `+=`) and the event is built
from the paywall record's own `creator` and `token_mint` fields. -/
def unlock_paywall (accs : UnlockAccounts) (content_id : String) (now : Int) :
    Except ProgramError UnlockOk :=
  let amount := accs.paywall.price
  if accs.paywall.token_mint ≠ accs.token_mint
      ∨ accs.user_token_account.mint ≠ accs.token_mint
      ∨ accs.creator_token_account.mint ≠ accs.token_mint then
    .error .invalidTokenMint
  else
    match transfer accs.user_token_account accs.creator_token_account amount with
    | .error e => .error (.transferError e)
    | .ok (u, c) =>
      .ok { paywall :=
              { accs.paywall with
                  access_count := (accs.paywall.access_count + 1) % U64MOD }
            user_token_account := u
            creator_token_account := c
            event :=
              { user := accs.user
                creator := accs.paywall.creator
                content_id := content_id
                token_mint := accs.paywall.token_mint
                amount := amount
                timestamp := now } }

/-- Modelled from the spec: the host's transactional guarantee — all
instructions in a request either fully apply or fully roll back. `run_tip`
runs `tip` and, on error, leaves every account as it was and emits no event. -/
def run_tip (accs : TipAccounts) (amount : Nat) (action : String) (now : Int) :
    TipAccounts × Option TipEvent × Option ProgramError :=
  match tip accs amount action now with
  | .error e => (accs, none, some e)
  | .ok r =>
    ({ accs with
        recipient_profile := r.recipient_profile
        sender_token_account := r.sender_token_account
        recipient_token_account := r.recipient_token_account },
     some r.event, none)

/-- Modelled from the spec: host rollback for `unlock_paywall`, as in
`run_tip`. -/
def run_unlock (accs : UnlockAccounts) (content_id : String) (now : Int) :
    UnlockAccounts × Option PaywallUnlockEvent × Option ProgramError :=
  match unlock_paywall accs content_id now with
  | .error e => (accs, none, some e)
  | .ok r =>
    ({ accs with
        paywall := r.paywall
        user_token_account := r.user_token_account
        creator_token_account := r.creator_token_account },
     some r.event, none)

/-- Modelled from the spec: the host's `AlreadyExists` failure of `init`
at an already-occupied derived address. -/
inductive InitError where
  | alreadyExists
  deriving DecidableEq, Repr

/-- Modelled from the spec: the persistent store keyed by derived addresses —
profiles at seeds `["user_profile", owner]`, paywalls at seeds
`["paywall", creator, content_id]`. -/
structure World where
  profiles : Pubkey → Option UserProfile
  paywalls : Pubkey → String → Option Paywall

/-- Modelled from the spec: `initialize_user` as a keyed-store operation —
the Anchor `init` constraint (`lib.rs` lines 134-147) fails with
`AlreadyExists` when a profile already exists at the derived address,
otherwise creates `initialize_user user` there. -/
def initialize_user_op (w : World) (user : Pubkey) : Except InitError World :=
  match w.profiles user with
  | some _ => .error .alreadyExists
  | none =>
    .ok { w with
            profiles := fun k =>
              if k = user then some (initialize_user user) else w.profiles k }

/-- Modelled from the spec: `create_paywall` as a keyed-store operation —
the Anchor `init` constraint (`lib.rs` lines 168-182) fails with
`AlreadyExists` when a paywall already exists at the address derived from
`(creator, content_id)`, otherwise creates the record of
`create_paywall_record` there. -/
def create_paywall_op (w : World) (creator : Pubkey) (content_id : String)
    (price : Nat) (token_mint : Pubkey) : Except InitError World :=
  match w.paywalls creator content_id with
  | some _ => .error .alreadyExists
  | none =>
    .ok { w with
            paywalls := fun c cid =>
              if c = creator ∧ cid = content_id then
                some (create_paywall_record creator content_id price token_mint)
              else w.paywalls c cid }

/-- A chain of `n` successful `tip` calls threading the same recipient
profile from `p` to `q`; the other accounts and arguments of each call are
arbitrary. -/
inductive TipChain : UserProfile → Nat → UserProfile → Prop where
  | nil (p : UserProfile) : TipChain p 0 p
  | step {p q : UserProfile} {n : Nat} (accs : TipAccounts) (amount : Nat)
      (action : String) (now : Int) (r : TipOk)
      (hp : accs.recipient_profile = p)
      (hok : tip accs amount action now = .ok r)
      (hrest : TipChain r.recipient_profile n q) :
      TipChain p (n + 1) q

/-! ## Helper lemmas -/

/-- Success characterization: `tip` succeeds exactly when both token-account mints equal the declared
mint and the sender balance covers `amount`; the result is then determined. -/
theorem tip_ok_iff (accs : TipAccounts) (amount : Nat) (action : String)
    (now : Int) (r : TipOk) :
    tip accs amount action now = .ok r ↔
      (accs.sender_token_account.mint = accs.token_mint ∧
        accs.recipient_token_account.mint = accs.token_mint) ∧
      amount ≤ accs.sender_token_account.amount ∧
      r = { recipient_profile :=
              { accs.recipient_profile with
                  interaction_count :=
                    (accs.recipient_profile.interaction_count + 1) % U64MOD }
            sender_token_account :=
              { accs.sender_token_account with
                  amount := accs.sender_token_account.amount - amount }
            recipient_token_account :=
              { accs.recipient_token_account with
                  amount := accs.recipient_token_account.amount + amount }
            event :=
              { sender := accs.sender
                recipient := accs.recipient
                token_mint := accs.token_mint
                amount := amount
                action := action
                timestamp := now } } := by
  constructor
  · intro h
    by_cases h1 : accs.sender_token_account.mint = accs.token_mint
    · by_cases h2 : accs.recipient_token_account.mint = accs.token_mint
      · by_cases h3 : accs.sender_token_account.amount < amount
        · simp [tip, transfer, h1, h2, h3] at h
        · simp [tip, transfer, h1, h2, h3] at h
          refine ⟨⟨h1, h2⟩, Nat.not_lt.mp h3, ?_⟩
          rw [← h]
          simp [h1, h2]
      · simp [tip, h2] at h
    · simp [tip, h1] at h
  · rintro ⟨⟨h1, h2⟩, h3, rfl⟩
    simp [tip, transfer, h1, h2, Nat.not_lt.mpr h3]

/-- Success characterization: `unlock_paywall` succeeds exactly when the paywall's stored mint and both
token-account mints equal the declared mint and the user balance covers the
paywall's price; the result is then determined. -/
theorem unlock_ok_iff (accs : UnlockAccounts) (content_id : String)
    (now : Int) (r : UnlockOk) :
    unlock_paywall accs content_id now = .ok r ↔
      (accs.paywall.token_mint = accs.token_mint ∧
        accs.user_token_account.mint = accs.token_mint ∧
        accs.creator_token_account.mint = accs.token_mint) ∧
      accs.paywall.price ≤ accs.user_token_account.amount ∧
      r = { paywall :=
              { accs.paywall with
                  access_count := (accs.paywall.access_count + 1) % U64MOD }
            user_token_account :=
              { accs.user_token_account with
                  amount := accs.user_token_account.amount - accs.paywall.price }
            creator_token_account :=
              { accs.creator_token_account with
                  amount :=
                    accs.creator_token_account.amount + accs.paywall.price }
            event :=
              { user := accs.user
                creator := accs.paywall.creator
                content_id := content_id
                token_mint := accs.paywall.token_mint
                amount := accs.paywall.price
                timestamp := now } } := by
  constructor
  · intro h
    by_cases h0 : accs.paywall.token_mint = accs.token_mint
    · by_cases h1 : accs.user_token_account.mint = accs.token_mint
      · by_cases h2 : accs.creator_token_account.mint = accs.token_mint
        · by_cases h3 : accs.user_token_account.amount < accs.paywall.price
          · simp [unlock_paywall, transfer, h0, h1, h2, h3] at h
          · simp [unlock_paywall, transfer, h0, h1, h2, h3] at h
            refine ⟨⟨h0, h1, h2⟩, Nat.not_lt.mp h3, ?_⟩
            rw [← h]
            simp [h0, h1, h2]
        · simp [unlock_paywall, h2] at h
      · simp [unlock_paywall, h1] at h
    · simp [unlock_paywall, h0] at h
  · rintro ⟨⟨h0, h1, h2⟩, h3, rfl⟩
    simp [unlock_paywall, transfer, h0, h1, h2, Nat.not_lt.mpr h3]

/-- Failure path: `tip` fails with `InvalidTokenMint` whenever the two token-account mints
and the declared mint are not all equal. -/
theorem tip_invalid_mint (accs : TipAccounts) (amount : Nat) (action : String)
    (now : Int)
    (h : ¬(accs.sender_token_account.mint = accs.token_mint ∧
           accs.recipient_token_account.mint = accs.token_mint)) :
    tip accs amount action now = .error .invalidTokenMint := by
  by_cases h1 : accs.sender_token_account.mint = accs.token_mint
  · have h2 : accs.recipient_token_account.mint ≠ accs.token_mint := by tauto
    simp [tip, h2]
  · simp [tip, h1]

/-- Failure path: `tip` propagates a transfer error unchanged when the mint checks pass. -/
theorem tip_transfer_error (accs : TipAccounts) (amount : Nat)
    (action : String) (now : Int) (e : TransferError)
    (h1 : accs.sender_token_account.mint = accs.token_mint)
    (h2 : accs.recipient_token_account.mint = accs.token_mint)
    (htr : transfer accs.sender_token_account accs.recipient_token_account
        amount = .error e) :
    tip accs amount action now = .error (.transferError e) := by
  simp [tip, h1, h2, htr]

/-- Failure path: `unlock_paywall` fails with `InvalidTokenMint` whenever the paywall's
stored mint, the two token-account mints and the declared mint are not all
equal. -/
theorem unlock_invalid_mint (accs : UnlockAccounts) (content_id : String)
    (now : Int)
    (h : ¬(accs.paywall.token_mint = accs.token_mint ∧
           accs.user_token_account.mint = accs.token_mint ∧
           accs.creator_token_account.mint = accs.token_mint)) :
    unlock_paywall accs content_id now = .error .invalidTokenMint := by
  by_cases h0 : accs.paywall.token_mint = accs.token_mint
  · by_cases h1 : accs.user_token_account.mint = accs.token_mint
    · have h2 : accs.creator_token_account.mint ≠ accs.token_mint := by tauto
      simp [unlock_paywall, h2]
    · simp [unlock_paywall, h1]
  · simp [unlock_paywall, h0]

/-- Failure path: `unlock_paywall` propagates a transfer error unchanged when the mint
checks pass. -/
theorem unlock_transfer_error (accs : UnlockAccounts) (content_id : String)
    (now : Int) (e : TransferError)
    (h0 : accs.paywall.token_mint = accs.token_mint)
    (h1 : accs.user_token_account.mint = accs.token_mint)
    (h2 : accs.creator_token_account.mint = accs.token_mint)
    (htr : transfer accs.user_token_account accs.creator_token_account
        accs.paywall.price = .error e) :
    unlock_paywall accs content_id now = .error (.transferError e) := by
  simp [unlock_paywall, h0, h1, h2, htr]

/-! ## Claim theorems -/

/-- C1: whenever the sender account mint, the recipient account mint and
the declared mint are not all equal, `tip` fails with `InvalidTokenMint`;
whenever the paywall's stored mint, the user account mint, the creator
account mint and the declared mint are not all equal, `unlock_paywall`
fails with `InvalidTokenMint`; in both cases every account (balances and
counters included) is left unchanged and no event is emitted. -/
theorem claim_C1_invalid_mint_rejection
    (ta : TipAccounts) (amount : Nat) (action : String) (now : Int)
    (ua : UnlockAccounts) (content_id : String) (now' : Int)
    (htip : ¬(ta.sender_token_account.mint = ta.token_mint ∧
              ta.recipient_token_account.mint = ta.token_mint))
    (hunlock : ¬(ua.paywall.token_mint = ua.token_mint ∧
                 ua.user_token_account.mint = ua.token_mint ∧
                 ua.creator_token_account.mint = ua.token_mint)) :
    run_tip ta amount action now = (ta, none, some .invalidTokenMint) ∧
    run_unlock ua content_id now' = (ua, none, some .invalidTokenMint) :=
  ⟨by simp [run_tip, tip_invalid_mint ta amount action now htip],
   by simp [run_unlock, unlock_invalid_mint ua content_id now' hunlock]⟩

/-- C1 witness at a concrete mismatched-mint input. -/
theorem claim_C1_invalid_mint_rejection_witness :
    run_tip { recipient_profile := { owner := 2, interaction_count := 7 }
              sender_token_account := { mint := 5, amount := 10 }
              recipient_token_account := { mint := 6, amount := 0 }
              sender := 1, recipient := 2, token_mint := 5 } 4 "gm" 0
      = ({ recipient_profile := { owner := 2, interaction_count := 7 }
           sender_token_account := { mint := 5, amount := 10 }
           recipient_token_account := { mint := 6, amount := 0 }
           sender := 1, recipient := 2, token_mint := 5 },
         none, some .invalidTokenMint) ∧
    run_unlock { paywall := { creator := 3, content_id := "post1", price := 4,
                              token_mint := 9, access_count := 0 }
                 user_token_account := { mint := 5, amount := 10 }
                 creator_token_account := { mint := 5, amount := 0 }
                 user := 1, token_mint := 5 } "post1" 0
      = ({ paywall := { creator := 3, content_id := "post1", price := 4,
                        token_mint := 9, access_count := 0 }
           user_token_account := { mint := 5, amount := 10 }
           creator_token_account := { mint := 5, amount := 0 }
           user := 1, token_mint := 5 },
         none, some .invalidTokenMint) :=
  claim_C1_invalid_mint_rejection _ 4 "gm" 0 _ "post1" 0
    (by decide) (by decide)

/-- C2: when the mint checks pass but the transfer primitive fails, `tip`
and `unlock_paywall` return that transfer error unchanged, every account
(profile / paywall counters and balances) is left as it was, and no event
is emitted. -/
theorem claim_C2_transfer_failure_atomicity
    (ta : TipAccounts) (amount : Nat) (action : String) (now : Int)
    (ua : UnlockAccounts) (content_id : String) (now' : Int)
    (e e' : TransferError)
    (ht1 : ta.sender_token_account.mint = ta.token_mint)
    (ht2 : ta.recipient_token_account.mint = ta.token_mint)
    (htr : transfer ta.sender_token_account ta.recipient_token_account
        amount = .error e)
    (hu0 : ua.paywall.token_mint = ua.token_mint)
    (hu1 : ua.user_token_account.mint = ua.token_mint)
    (hu2 : ua.creator_token_account.mint = ua.token_mint)
    (hutr : transfer ua.user_token_account ua.creator_token_account
        ua.paywall.price = .error e') :
    run_tip ta amount action now = (ta, none, some (.transferError e)) ∧
    run_unlock ua content_id now' = (ua, none, some (.transferError e')) :=
  ⟨by simp [run_tip, tip_transfer_error ta amount action now e ht1 ht2 htr],
   by simp [run_unlock,
        unlock_transfer_error ua content_id now' e' hu0 hu1 hu2 hutr]⟩

/-- C2 witness: a concrete insufficient-balance transfer failure. -/
theorem claim_C2_transfer_failure_atomicity_witness :
    run_tip { recipient_profile := { owner := 2, interaction_count := 7 }
              sender_token_account := { mint := 5, amount := 3 }
              recipient_token_account := { mint := 5, amount := 0 }
              sender := 1, recipient := 2, token_mint := 5 } 4 "gm" 0
      = ({ recipient_profile := { owner := 2, interaction_count := 7 }
           sender_token_account := { mint := 5, amount := 3 }
           recipient_token_account := { mint := 5, amount := 0 }
           sender := 1, recipient := 2, token_mint := 5 },
         none, some (.transferError .insufficientFunds)) ∧
    run_unlock { paywall := { creator := 3, content_id := "post1", price := 100,
                              token_mint := 5, access_count := 2 }
                 user_token_account := { mint := 5, amount := 99 }
                 creator_token_account := { mint := 5, amount := 0 }
                 user := 1, token_mint := 5 } "post1" 0
      = ({ paywall := { creator := 3, content_id := "post1", price := 100,
                        token_mint := 5, access_count := 2 }
           user_token_account := { mint := 5, amount := 99 }
           creator_token_account := { mint := 5, amount := 0 }
           user := 1, token_mint := 5 },
         none, some (.transferError .insufficientFunds)) :=
  claim_C2_transfer_failure_atomicity _ 4 "gm" 0 _ "post1" 0 _ _
    (by decide) (by decide) rfl (by decide) (by decide) (by decide) rfl

/-- A committed (post-rollback-wrapper) successful `unlock_paywall` comes
from a successful `unlock_paywall` run. -/
theorem run_unlock_ok (accs : UnlockAccounts) (content_id : String)
    (now : Int) (accs' : UnlockAccounts) (ev : PaywallUnlockEvent)
    (h : run_unlock accs content_id now = (accs', some ev, none)) :
    ∃ r, unlock_paywall accs content_id now = .ok r ∧
      accs' = { accs with
                  paywall := r.paywall
                  user_token_account := r.user_token_account
                  creator_token_account := r.creator_token_account } ∧
      ev = r.event := by
  unfold run_unlock at h
  cases hu : unlock_paywall accs content_id now with
  | error e => rw [hu] at h; simp at h
  | ok r =>
    rw [hu] at h
    simp only [Prod.mk.injEq, Option.some.injEq] at h
    exact ⟨r, rfl, h.1.symm, h.2.1.symm⟩

/-- C3: a successful `unlock_paywall` transfers exactly the paywall's stored
`price` from the user token account to the creator token account (the
amount is read from the record, not supplied by the caller: `unlock_paywall`
takes no amount argument), and the emitted event carries that amount. -/
theorem claim_C3_unlock_amount_is_stored_price
    (accs : UnlockAccounts) (content_id : String) (now : Int)
    (accs' : UnlockAccounts) (ev : PaywallUnlockEvent)
    (h : run_unlock accs content_id now = (accs', some ev, none)) :
    ev.amount = accs.paywall.price ∧
    accs'.user_token_account.amount
      = accs.user_token_account.amount - accs.paywall.price ∧
    accs'.creator_token_account.amount
      = accs.creator_token_account.amount + accs.paywall.price ∧
    accs.paywall.price ≤ accs.user_token_account.amount := by
  obtain ⟨r, hok, ha, he⟩ := run_unlock_ok accs content_id now accs' ev h
  obtain ⟨hm, hle, hr⟩ := (unlock_ok_iff accs content_id now r).mp hok
  subst hr ha he
  exact ⟨rfl, rfl, rfl, hle⟩

/-- C3 witness: the spec's scenario — price 100, user balance 150. -/
theorem claim_C3_unlock_amount_is_stored_price_witness :
    (100 : Nat) = 100 ∧ (50 : Nat) = 150 - 100 ∧ (100 : Nat) = 0 + 100 ∧
    (100 : Nat) ≤ 150 :=
  claim_C3_unlock_amount_is_stored_price
    { paywall := { creator := 3, content_id := "post1", price := 100,
                   token_mint := 5, access_count := 0 }
      user_token_account := { mint := 5, amount := 150 }
      creator_token_account := { mint := 5, amount := 0 }
      user := 1, token_mint := 5 } "post1" 0
    { paywall := { creator := 3, content_id := "post1", price := 100,
                   token_mint := 5, access_count := 1 }
      user_token_account := { mint := 5, amount := 50 }
      creator_token_account := { mint := 5, amount := 100 }
      user := 1, token_mint := 5 }
    { user := 1, creator := 3, content_id := "post1", token_mint := 5,
      amount := 100, timestamp := 0 }
    (by decide)

/-- C7: the event of a successful `unlock_paywall` carries the acting user,
the creator and token mint read from the paywall record itself, the content
id, the transferred amount (the paywall's price) and the host-clock
timestamp. -/
theorem claim_C7_unlock_event_fields
    (accs : UnlockAccounts) (content_id : String) (now : Int) (r : UnlockOk)
    (h : unlock_paywall accs content_id now = .ok r) :
    r.event = { user := accs.user
                creator := accs.paywall.creator
                content_id := content_id
                token_mint := accs.paywall.token_mint
                amount := accs.paywall.price
                timestamp := now } := by
  obtain ⟨hm, hle, hr⟩ := (unlock_ok_iff accs content_id now r).mp h
  subst hr
  rfl

/-- C7 witness at the spec's scenario inputs. -/
theorem claim_C7_unlock_event_fields_witness :
    ({ user := 1, creator := 3, content_id := "post1", token_mint := 5,
       amount := 100, timestamp := 42 } : PaywallUnlockEvent)
      = { user := 1, creator := 3, content_id := "post1", token_mint := 5,
          amount := 100, timestamp := 42 } :=
  claim_C7_unlock_event_fields
    { paywall := { creator := 3, content_id := "post1", price := 100,
                   token_mint := 5, access_count := 0 }
      user_token_account := { mint := 5, amount := 150 }
      creator_token_account := { mint := 5, amount := 0 }
      user := 1, token_mint := 5 } "post1" 42
    { paywall := { creator := 3, content_id := "post1", price := 100,
                   token_mint := 5, access_count := 1 }
      user_token_account := { mint := 5, amount := 50 }
      creator_token_account := { mint := 5, amount := 100 }
      event := { user := 1, creator := 3, content_id := "post1",
                 token_mint := 5, amount := 100, timestamp := 42 } }
    rfl

/-- C9: a successful `unlock_paywall` changes only `access_count` in the
paywall record (incremented by 1 modulo `2^64`); `creator`, `content_id`,
`price` and `token_mint` are unchanged. No `UserProfile` appears among the
accounts of `unlock_paywall`, so none is modified. -/
theorem claim_C9_unlock_paywall_frame
    (accs : UnlockAccounts) (content_id : String) (now : Int) (r : UnlockOk)
    (h : unlock_paywall accs content_id now = .ok r) :
    r.paywall.creator = accs.paywall.creator ∧
    r.paywall.content_id = accs.paywall.content_id ∧
    r.paywall.price = accs.paywall.price ∧
    r.paywall.token_mint = accs.paywall.token_mint ∧
    r.paywall.access_count = (accs.paywall.access_count + 1) % U64MOD := by
  obtain ⟨hm, hle, hr⟩ := (unlock_ok_iff accs content_id now r).mp h
  subst hr
  exact ⟨rfl, rfl, rfl, rfl, rfl⟩

/-- C9 witness at the spec's scenario inputs. -/
theorem claim_C9_unlock_paywall_frame_witness :
    (3 : Pubkey) = 3 ∧ ("post1" : String) = "post1" ∧ (100 : Nat) = 100 ∧
    (5 : Pubkey) = 5 ∧ (1 : Nat) = (0 + 1) % U64MOD :=
  claim_C9_unlock_paywall_frame
    { paywall := { creator := 3, content_id := "post1", price := 100,
                   token_mint := 5, access_count := 0 }
      user_token_account := { mint := 5, amount := 150 }
      creator_token_account := { mint := 5, amount := 0 }
      user := 1, token_mint := 5 } "post1" 0
    { paywall := { creator := 3, content_id := "post1", price := 100,
                   token_mint := 5, access_count := 1 }
      user_token_account := { mint := 5, amount := 50 }
      creator_token_account := { mint := 5, amount := 100 }
      event := { user := 1, creator := 3, content_id := "post1",
                 token_mint := 5, amount := 100, timestamp := 0 } }
    rfl

/-- C8: `tip` with `amount = 0` is not rejected — no lower bound on the
amount is checked, and a zero transfer never fails for insufficient funds —
so when the mints agree it commits: the balances are unchanged, the
recipient profile's `interaction_count` is incremented by 1 (mod `2^64`),
and a `TipEvent` with `amount = 0` is emitted. -/
theorem claim_C8_zero_amount_tip
    (accs : TipAccounts) (action : String) (now : Int)
    (h1 : accs.sender_token_account.mint = accs.token_mint)
    (h2 : accs.recipient_token_account.mint = accs.token_mint) :
    run_tip accs 0 action now =
      ({ accs with
           recipient_profile :=
             { accs.recipient_profile with
                 interaction_count :=
                   (accs.recipient_profile.interaction_count + 1) % U64MOD } },
       some { sender := accs.sender
              recipient := accs.recipient
              token_mint := accs.token_mint
              amount := 0
              action := action
              timestamp := now },
       none) := by
  have hok := (tip_ok_iff accs 0 action now _).mpr
    ⟨⟨h1, h2⟩, Nat.zero_le _, rfl⟩
  simp [run_tip, hok]

/-- C8 witness at a concrete zero-amount tip. -/
theorem claim_C8_zero_amount_tip_witness :
    run_tip { recipient_profile := { owner := 2, interaction_count := 7 }
              sender_token_account := { mint := 5, amount := 3 }
              recipient_token_account := { mint := 5, amount := 9 }
              sender := 1, recipient := 2, token_mint := 5 } 0 "like" 11
      = ({ recipient_profile := { owner := 2, interaction_count := 8 }
           sender_token_account := { mint := 5, amount := 3 }
           recipient_token_account := { mint := 5, amount := 9 }
           sender := 1, recipient := 2, token_mint := 5 },
         some { sender := 1, recipient := 2, token_mint := 5, amount := 0,
                action := "like", timestamp := 11 },
         none) :=
  claim_C8_zero_amount_tip _ "like" 11 (by decide) (by decide)

/-- C10: the counter increments use wrapping `u64` addition: a successful
`tip` on a profile whose `interaction_count` is `2^64 - 1` leaves it at 0,
and a successful `unlock_paywall` on a paywall whose `access_count` is
`2^64 - 1` leaves it at 0; the operations still succeed rather than fail. -/
theorem claim_C10_counter_wraparound
    (ta : TipAccounts) (amount : Nat) (action : String) (now : Int)
    (r : TipOk) (ua : UnlockAccounts) (content_id : String) (now' : Int)
    (ru : UnlockOk)
    (htc : ta.recipient_profile.interaction_count = U64MOD - 1)
    (htip : tip ta amount action now = .ok r)
    (huc : ua.paywall.access_count = U64MOD - 1)
    (hun : unlock_paywall ua content_id now' = .ok ru) :
    r.recipient_profile.interaction_count = 0 ∧
    ru.paywall.access_count = 0 := by
  obtain ⟨-, -, hr⟩ := (tip_ok_iff ta amount action now r).mp htip
  obtain ⟨-, -, hru⟩ := (unlock_ok_iff ua content_id now' ru).mp hun
  subst hr hru
  simp only [htc, huc]
  constructor <;> · show (U64MOD - 1 + 1) % U64MOD = 0
                    simp [U64MOD]

/-- C10 witness: concrete saturated counters wrap to 0. -/
theorem claim_C10_counter_wraparound_witness :
    (0 : Nat) = 0 ∧ (0 : Nat) = 0 :=
  claim_C10_counter_wraparound
    { recipient_profile := { owner := 2, interaction_count := U64MOD - 1 }
      sender_token_account := { mint := 5, amount := 3 }
      recipient_token_account := { mint := 5, amount := 9 }
      sender := 1, recipient := 2, token_mint := 5 } 2 "gm" 0
    { recipient_profile := { owner := 2, interaction_count := 0 }
      sender_token_account := { mint := 5, amount := 1 }
      recipient_token_account := { mint := 5, amount := 11 }
      event := { sender := 1, recipient := 2, token_mint := 5, amount := 2,
                 action := "gm", timestamp := 0 } }
    { paywall := { creator := 3, content_id := "post1", price := 100,
                   token_mint := 5, access_count := U64MOD - 1 }
      user_token_account := { mint := 5, amount := 150 }
      creator_token_account := { mint := 5, amount := 0 }
      user := 1, token_mint := 5 } "post1" 0
    { paywall := { creator := 3, content_id := "post1", price := 100,
                   token_mint := 5, access_count := 0 }
      user_token_account := { mint := 5, amount := 50 }
      creator_token_account := { mint := 5, amount := 100 }
      event := { user := 1, creator := 3, content_id := "post1",
                 token_mint := 5, amount := 100, timestamp := 0 } }
    rfl rfl rfl rfl

/-- A successful `tip` sends the recipient profile's `interaction_count` to
its successor modulo `2^64` and preserves `owner`. -/
theorem tip_ok_interaction_count (accs : TipAccounts) (amount : Nat)
    (action : String) (now : Int) (r : TipOk)
    (h : tip accs amount action now = .ok r) :
    r.recipient_profile.interaction_count
      = (accs.recipient_profile.interaction_count + 1) % U64MOD ∧
    r.recipient_profile.owner = accs.recipient_profile.owner := by
  obtain ⟨-, -, hr⟩ := (tip_ok_iff accs amount action now r).mp h
  subst hr
  exact ⟨rfl, rfl⟩

theorem U64MOD_pos : 0 < U64MOD := by decide

/-- A tip accounts record whose recipient profile counter is saturated at
`2^64 - 1`, with matching mints and sufficient balance. -/
def c4Accs : TipAccounts :=
  { recipient_profile := { owner := 2, interaction_count := U64MOD - 1 }
    sender_token_account := { mint := 5, amount := 10 }
    recipient_token_account := { mint := 5, amount := 0 }
    sender := 1, recipient := 2, token_mint := 5 }

/-- C4 counterexample: a successful `tip` (no error returned) on a profile
whose `interaction_count` is `2^64 - 1` leaves the committed count at 0,
which is neither the starting value plus 1 nor ≥ the starting value. -/
theorem claim_C4_counterexample :
    (run_tip c4Accs 3 "gm" 0).2.2 = none ∧
    (run_tip c4Accs 3 "gm" 0).1.recipient_profile.interaction_count = 0 ∧
    c4Accs.recipient_profile.interaction_count + 1 ≠ 0 ∧
    (run_tip c4Accs 3 "gm" 0).1.recipient_profile.interaction_count
      < c4Accs.recipient_profile.interaction_count := by
  refine ⟨rfl, rfl, by decide, by decide⟩

/-- C4 (amended): across a chain of `n` successful `tip` calls threading the
same recipient profile, `interaction_count` ends at its starting value plus
`n` modulo `2^64`, `owner` is unchanged, and whenever the starting value
plus `n` stays below `2^64` the count ends at exactly the starting value
plus `n` and is non-decreasing. -/
theorem claim_C4_amended_counter_additivity {p q : UserProfile} {n : Nat}
    (hchain : TipChain p n q) (hlt : p.interaction_count < U64MOD) :
    q.interaction_count = (p.interaction_count + n) % U64MOD ∧
    q.owner = p.owner ∧
    (p.interaction_count + n < U64MOD →
      q.interaction_count = p.interaction_count + n ∧
      p.interaction_count ≤ q.interaction_count) := by
  revert hlt
  induction hchain with
  | nil p =>
    intro hlt
    refine ⟨by simp [Nat.mod_eq_of_lt hlt], rfl, fun _ => ⟨by simp, le_refl _⟩⟩
  | @step p' q' n' accs amount action now r hp hok hrest ih =>
    intro hlt
    subst hp
    obtain ⟨hr1, hr2⟩ := tip_ok_interaction_count accs amount action now r hok
    have hlt' : r.recipient_profile.interaction_count < U64MOD := by
      rw [hr1]; exact Nat.mod_lt _ U64MOD_pos
    obtain ⟨ihq, ihow, ihbound⟩ := ih hlt'
    refine ⟨?_, ihow.trans hr2, ?_⟩
    · rw [ihq, hr1, Nat.mod_add_mod]
      congr 1
      omega
    · intro hb
      have h1 : accs.recipient_profile.interaction_count + 1 < U64MOD := by omega
      have hr1' : r.recipient_profile.interaction_count
          = accs.recipient_profile.interaction_count + 1 := by
        rw [hr1, Nat.mod_eq_of_lt h1]
      have hb' : r.recipient_profile.interaction_count + n' < U64MOD := by omega
      obtain ⟨hq, hmono⟩ := ihbound hb'
      constructor <;> omega

/-- Chain-start accounts for the C4 witness. -/
def c4WAccs : TipAccounts :=
  { recipient_profile := { owner := 2, interaction_count := 0 }
    sender_token_account := { mint := 5, amount := 7 }
    recipient_token_account := { mint := 5, amount := 1 }
    sender := 1, recipient := 2, token_mint := 5 }

/-- Result of the single successful tip in the C4 witness chain. -/
def c4WOk : TipOk :=
  { recipient_profile := { owner := 2, interaction_count := 1 }
    sender_token_account := { mint := 5, amount := 4 }
    recipient_token_account := { mint := 5, amount := 4 }
    event := { sender := 1, recipient := 2, token_mint := 5, amount := 3,
               action := "gm", timestamp := 0 } }

/-- C4 (amended) witness: a concrete one-step chain from count 0 to count 1. -/
theorem claim_C4_amended_counter_additivity_witness :
    c4WOk.recipient_profile.interaction_count
      = (c4WAccs.recipient_profile.interaction_count + 1) % U64MOD ∧
    c4WOk.recipient_profile.owner = c4WAccs.recipient_profile.owner :=
  ⟨(claim_C4_amended_counter_additivity
      (TipChain.step c4WAccs 3 "gm" 0 c4WOk rfl rfl
        (TipChain.nil c4WOk.recipient_profile)) (by decide)).1,
   (claim_C4_amended_counter_additivity
      (TipChain.step c4WAccs 3 "gm" 0 c4WOk rfl rfl
        (TipChain.nil c4WOk.recipient_profile)) (by decide)).2.1⟩

/-- C5: a successful `initialize_user` creates a `UserProfile` whose `owner`
is the calling user's key and whose `interaction_count` is 0, stored at the
user's derived address; the only mutation path for the record, `tip`, never
changes `owner` (and `create_paywall` / `unlock_paywall` take no
`UserProfile` account at all). -/
theorem claim_C5_initialize_user_fields (user : Pubkey) (w w' : World)
    (accs : TipAccounts) (amount : Nat) (action : String) (now : Int)
    (r : TipOk) :
    (initialize_user user).owner = user ∧
    (initialize_user user).interaction_count = 0 ∧
    (initialize_user_op w user = .ok w' →
      w'.profiles user = some (initialize_user user)) ∧
    (tip accs amount action now = .ok r →
      r.recipient_profile.owner = accs.recipient_profile.owner) := by
  refine ⟨rfl, rfl, ?_, ?_⟩
  · intro h
    cases hw : w.profiles user with
    | some pr => simp [initialize_user_op, hw] at h
    | none =>
      simp [initialize_user_op, hw] at h
      rw [← h]
      simp
  · intro h
    exact (tip_ok_interaction_count accs amount action now r h).2

/-- The empty keyed store. -/
def w0 : World := { profiles := fun _ => none, paywalls := fun _ _ => none }

/-- The store after `initialize_user` for owner 3 on the empty store. -/
def w1 : World :=
  { w0 with
      profiles := fun k =>
        if k = 3 then some (initialize_user 3) else w0.profiles k }

/-- C5 witness: concrete initialization for owner 3 plus a concrete
owner-preserving successful tip. -/
theorem claim_C5_initialize_user_fields_witness :
    w1.profiles 3 = some (initialize_user 3) ∧
    c4WOk.recipient_profile.owner = c4WAccs.recipient_profile.owner :=
  ⟨(claim_C5_initialize_user_fields 3 w0 w1 c4WAccs 3 "gm" 0 c4WOk).2.2.1 rfl,
   (claim_C5_initialize_user_fields 3 w0 w1 c4WAccs 3 "gm" 0 c4WOk).2.2.2 rfl⟩

/-- C6: re-running `initialize_user` for the same owner fails with
`AlreadyExists` and the stored record (count still 0) is untouched;
`create_paywall` for an existing `(creator, content_id)` pair fails with
`AlreadyExists` and the stored record keeps its original `price` and
`token_mint`; the same creator with a fresh content id, or a fresh creator
with the same content id, still succeeds. -/
theorem claim_C6_creation_uniqueness
    (w wp w₁ : World) (u A B : Pubkey) (x y : String)
    (p p' p'' : Nat) (m m' m'' : Pubkey)
    (hinit : initialize_user_op w u = .ok wp)
    (hcp : create_paywall_op w A x p m = .ok w₁) :
    initialize_user_op wp u = .error .alreadyExists ∧
    wp.profiles u = some (initialize_user u) ∧
    create_paywall_op w₁ A x p' m' = .error .alreadyExists ∧
    w₁.paywalls A x = some (create_paywall_record A x p m) ∧
    (y ≠ x → w.paywalls A y = none →
      ∃ w₂, create_paywall_op w₁ A y p' m' = .ok w₂) ∧
    (B ≠ A → w.paywalls B x = none →
      ∃ w₂, create_paywall_op w₁ B x p'' m'' = .ok w₂) := by
  have hwp : wp = { w with
      profiles := fun k =>
        if k = u then some (initialize_user u) else w.profiles k } := by
    cases hw : w.profiles u with
    | some pr => simp [initialize_user_op, hw] at hinit
    | none =>
      simp [initialize_user_op, hw] at hinit
      exact hinit.symm
  have hw1 : w₁ = { w with
      paywalls := fun c cid =>
        if c = A ∧ cid = x then some (create_paywall_record A x p m)
        else w.paywalls c cid } := by
    cases hw : w.paywalls A x with
    | some pw => simp [create_paywall_op, hw] at hcp
    | none =>
      simp [create_paywall_op, hw] at hcp
      exact hcp.symm
  have hpu : wp.profiles u = some (initialize_user u) := by
    rw [hwp]; simp
  have hax : w₁.paywalls A x = some (create_paywall_record A x p m) := by
    rw [hw1]; simp
  refine ⟨by simp [initialize_user_op, hpu], hpu,
    by simp [create_paywall_op, hax], hax, ?_, ?_⟩
  · intro hy hnone
    have hlook : w₁.paywalls A y = none := by
      rw [hw1]; simp [hy, hnone]
    cases hop : create_paywall_op w₁ A y p' m' with
    | error e => simp [create_paywall_op, hlook] at hop
    | ok w₂ => exact ⟨w₂, rfl⟩
  · intro hB hnone
    have hlook : w₁.paywalls B x = none := by
      rw [hw1]; simp [hB, hnone]
    cases hop : create_paywall_op w₁ B x p'' m'' with
    | error e => simp [create_paywall_op, hlook] at hop
    | ok w₂ => exact ⟨w₂, rfl⟩

/-- The store after `create_paywall` by creator 10 for content "x" on the
empty store. -/
def w2 : World :=
  { w0 with
      paywalls := fun c cid =>
        if c = 10 ∧ cid = "x" then some (create_paywall_record 10 "x" 100 5)
        else w0.paywalls c cid }

/-- C6 witness: concrete duplicate creations both fail with `AlreadyExists`. -/
theorem claim_C6_creation_uniqueness_witness :
    initialize_user_op w1 3 = .error .alreadyExists ∧
    create_paywall_op w2 10 "x" 7 6 = .error .alreadyExists :=
  ⟨(claim_C6_creation_uniqueness w0 w1 w2 3 10 11 "x" "y" 100 7 8 5 6 4
      rfl rfl).1,
   (claim_C6_creation_uniqueness w0 w1 w2 3 10 11 "x" "y" 100 7 8 5 6 4
      rfl rfl).2.2.1⟩

end NoiceSolana
